import Mathlib

/-
Verification of the motor controller in srcs/motor_control_ble_pipe.c.

Shallow embedding conventions:
* C `double` values are modelled as rationals (ℚ), i.e. exact real arithmetic.
* The 32-bit microsecond tick counter (`gpioTick`) is modelled as a natural
  number below 2^32 where it matters; the source's own wraparound arithmetic
  is transcribed literally.
* The global mutable variables of the C file are gathered into one record,
  `CtrlState`; every C function that mutates globals or GPIO outputs becomes
  a state transformer `CtrlState → ... → CtrlState`.
* GPIO side effects (`gpioPWM`, `gpioWrite`) are modelled as fields of a
  `GPIO` record inside the state (pwm duty 0-255, the two H-bridge direction
  lines, the status LED).
* Console printing (`printf`) has no observable state and is dropped.
* The line-oriented command strings are modelled after parsing: each
  constructor of `Command` corresponds to one dispatch branch of
  `processCommand` in the source (`strncmp(input, "auto ", 5)`,
  `strcmp(input, "manual")`, ..., `input[0]=='s' && input[1]==' '`), with the
  numeric payloads being the results of the source's `atof` / `atoi` calls.
-/

namespace MC

/-- Hardware output lines driven by the controller: the PWM duty written to
MOTOR_ENABLE_PIN (pigpio range 0-255, 0 meaning the PWM signal is stopped),
the two H-bridge direction lines MOTOR_IN1_PIN / MOTOR_IN2_PIN, and the
status LED on LED_PIN. -/
structure GPIO where
  pwm : ℤ
  in1 : Bool
  in2 : Bool
  led : Bool
deriving DecidableEq

/-- The controller's global mutable state, one field per global variable of
motor_control_ble_pipe.c (plus the GPIO outputs and the pipe-reconnect
counter that is a local of `main`). -/
structure CtrlState where
  speed : ℤ                        -- g_speed (percent)
  motor_on : Bool                  -- g_motor_on
  direction : ℤ                    -- g_direction (1 = forward, else reverse)
  control_mode : ℤ                 -- g_control_mode (0 = manual, 1 = automatic)
  desired_rpm : ℚ                  -- g_desired_rpm
  pid_integral : ℚ                 -- g_pid_integral
  pid_last_error : ℚ               -- g_pid_last_error
  last_speed_change_time : ℕ       -- g_last_speed_change_time (uint32, 0 = unset)
  gpio : GPIO                      -- hardware output lines
  quit : Bool                      -- g_quit
  pipe_open : Bool                 -- g_pipe_fd != -1 (inbound command pipe)
  reconnect_timer : ℕ              -- pipe_reconnect_timer (local of main)
deriving DecidableEq

/-- Wraparound-adjusted elapsed time between uint32 ticks, exactly as the
source computes it in `rpmThread` and in `pidController`:
`elapsed = now - t; if (now < t) elapsed = (0xFFFFFFFF - t) + now;`.
For `now, t < 2^32` the unsigned subtraction in the non-overflow branch
equals truncated natural subtraction. -/
def elapsedWrap (now t : ℕ) : ℕ :=
  if now < t then (4294967295 - t) + now else now - t

/-- The clamp of `setSpeed` (and of the PID result):
`if (x < 0) x = 0; if (x > 100) x = 100;`. -/
def clampSpeed (n : ℤ) : ℤ :=
  if n < 0 then 0 else if n > 100 then 100 else n

/-- `setSpeed(int speed)`: clamp to [0,100], store in `g_speed`; speed 0
clears `g_motor_on`, stops the PWM and turns the LED off; positive speed sets
`g_motor_on`, applies PWM duty `speed*255/100` and turns the LED on. -/
def setSpeed (s : CtrlState) (x : ℤ) : CtrlState :=
  let sp := clampSpeed x
  if sp = 0 then
    { s with speed := sp, motor_on := false,
             gpio := { s.gpio with pwm := 0, led := false } }
  else
    { s with speed := sp, motor_on := true,
             gpio := { s.gpio with pwm := sp * 255 / 100, led := true } }

/-- `setDirection(int dir)`: store `g_direction`; dir 1 drives IN1 high /
IN2 low (forward), anything else IN1 low / IN2 high (reverse). -/
def setDirection (s : CtrlState) (dir : ℤ) : CtrlState :=
  let s1 := { s with direction := dir }
  if dir = 1 then
    { s1 with gpio := { s1.gpio with in1 := true, in2 := false } }
  else
    { s1 with gpio := { s1.gpio with in1 := false, in2 := true } }

/-- `motorOff()`: unconditional hard stop — clear `g_motor_on`, PWM to 0,
both direction lines low (brake), LED off. `g_speed` and `g_direction` are
not touched. -/
def motorOff (s : CtrlState) : CtrlState :=
  { s with motor_on := false,
           gpio := { pwm := 0, in1 := false, in2 := false, led := false } }

/-- `motorOn()`: no-op if already on; otherwise default `g_speed` to 50 when
it is 0, set `g_motor_on`, re-apply direction, then apply the speed. -/
def motorOn (s : CtrlState) : CtrlState :=
  if s.motor_on then s
  else
    let s1 := if s.speed = 0 then { s with speed := 50 } else s
    let s2 := { s1 with motor_on := true }
    let s3 := setDirection s2 s2.direction
    setSpeed s3 s3.speed

/-- The integral-accumulation step of `pidController`: accumulate only when
`fabs(error) < 500.0` (anti-windup gate), then clamp to ±MAX_INTEGRAL (50). -/
def pidNewIntegral (integral error : ℚ) : ℚ :=
  if |error| < 500 then
    let i := integral + error
    if i > 50 then 50 else if i < -50 then -50 else i
  else integral

/-- The raw PID adjustment `p_term + i_term + d_term` of `pidController`,
with KP = 0.03, KI = 0.005, KD = 0.01 and the already-updated integral. -/
def pidAdjustment (integral lastError error : ℚ) : ℚ :=
  let p_term := (3 / 100 : ℚ) * error
  let i_term := (5 / 1000 : ℚ) * pidNewIntegral integral error
  let d_term := (1 / 100 : ℚ) * (error - lastError)
  p_term + i_term + d_term

/-- The rate limit of `pidController`: clamp the adjustment to
±MAX_SPEED_CHANGE (2) before it is added to the current speed. -/
def clampAdj (q : ℚ) : ℚ :=
  if q > 2 then 2 else if q < -2 then -2 else q

/-- C's `(int)` cast on a double: truncation toward zero, on ℚ. -/
def ratTrunc (q : ℚ) : ℤ :=
  if q < 0 then ⌈q⌉ else ⌊q⌋

/-- `pidController(double current_rpm, double desired_rpm)`, returning the
new speed together with the updated global state.  `now` is the value of the
`gpioTick()` call guarding the stabilization delay, `now2` the value of the
second `gpioTick()` call used to stamp `g_last_speed_change_time`.
Paths, in source order: target below 1.0 resets the PID state and returns 0;
the stabilization gate (a prior speed change less than
RPM_STABILIZE_DELAY_US = 500000 µs ago) returns `g_speed` unchanged;
otherwise the three terms are combined, the delta is rate-limited to ±2,
added to the current speed, clamped to [0,100], the kickstart rule forces a
result in (0,20) up to 20 when starting from 0, and a changed speed stamps
the stabilization timer. -/
def pidController (g : CtrlState) (current_rpm desired_rpm : ℚ) (now now2 : ℕ) :
    ℤ × CtrlState :=
  if desired_rpm < 1 then
    (0, { g with pid_integral := 0, pid_last_error := 0, last_speed_change_time := 0 })
  else if 0 < g.last_speed_change_time ∧
          elapsedWrap now g.last_speed_change_time < 500000 then
    (g.speed, g)
  else
    let error := desired_rpm - current_rpm
    let integral2 := pidNewIntegral g.pid_integral error
    let adj := clampAdj (pidAdjustment g.pid_integral g.pid_last_error error)
    let ns1 := clampSpeed (g.speed + ratTrunc adj)
    let ns2 := if g.speed = 0 ∧ 0 < ns1 ∧ ns1 < 20 then 20 else ns1
    let g2 := { g with pid_integral := integral2, pid_last_error := error }
    if ns2 ≠ g.speed then (ns2, { g2 with last_speed_change_time := now2 })
    else (ns2, g2)

/-- One parsed command line, one constructor per dispatch branch of
`processCommand` (see the header comment on string parsing). -/
inductive Command where
  | cmdAuto (n : ℚ)      -- "auto N", n = atof of the tail
  | cmdManual            -- "manual"
  | cmdOn                -- "on"
  | cmdOff               -- "off"
  | cmdFwd               -- "f"
  | cmdRev               -- "r"
  | cmdRpm               -- "rpm" (prints only)
  | cmdQuit              -- "q"
  | cmdPlus              -- "+"
  | cmdMinus             -- "-"
  | cmdSetSpeed (n : ℤ)  -- "s N", n = atoi of the tail
  | cmdUnknown           -- anything else (including the empty line)
deriving DecidableEq

/-- `processCommand(char* input)` after line cleanup and parsing.
Branch order as in the source: "auto N" (clamp target to [0,10000], enter
automatic mode, reset `g_pid_integral` and `g_pid_last_error`, then start the
motor — defaulting a zero speed to 30 — when the target is positive, else
`motorOff`); "manual"; the universal commands on/off/f/r/rpm/q; then, only
when not in automatic mode, the manual speed commands plus, minus, s N. In automatic
mode those fall through to the rejection branch, which only prints. -/
def processCommand (s : CtrlState) (c : Command) : CtrlState :=
  match c with
  | .cmdAuto n =>
      let desired := if n < 0 then (0 : ℚ) else if n > 10000 then 10000 else n
      let s1 := { s with desired_rpm := desired, control_mode := 1,
                         pid_integral := 0, pid_last_error := 0 }
      if 0 < desired then
        if s1.motor_on then s1
        else
          let s2 := { s1 with motor_on := true }
          let s3 := setDirection s2 s2.direction
          let s4 := if s3.speed = 0 then { s3 with speed := 30 } else s3
          setSpeed s4 s4.speed
      else motorOff s1
  | .cmdManual => { s with control_mode := 0 }
  | .cmdOn => motorOn s
  | .cmdOff => motorOff s
  | .cmdFwd => setDirection s 1
  | .cmdRev => setDirection s 0
  | .cmdRpm => s
  | .cmdQuit => { s with quit := true }
  | .cmdPlus => if s.control_mode = 1 then s else setSpeed s (s.speed + 10)
  | .cmdMinus => if s.control_mode = 1 then s else setSpeed s (s.speed - 10)
  | .cmdSetSpeed n => if s.control_mode = 1 then s else setSpeed s n
  | .cmdUnknown => s

/-- What one `select` round observed on the inbound command pipe:
nothing readable, one line, or end-of-stream (`fgets` returned NULL). -/
inductive PipeRead where
  | noData
  | line (c : Command)
  | eof
deriving DecidableEq

/-- The keyboard branch of the main loop: process one line when stdin was
ready. -/
def handleStdin (s : CtrlState) (kb : Option Command) : CtrlState :=
  match kb with
  | none => s
  | some c => processCommand s c

/-- The pipe branch of the main loop (guarded by `g_pipe_fd != -1`): a line
is dispatched; end-of-stream forces `motorOff()`, `g_control_mode = 0` and
`closePipe()` — the safety stop — in that order. -/
def handlePipe (s : CtrlState) (r : PipeRead) : CtrlState :=
  if s.pipe_open then
    match r with
    | .noData => s
    | .line c => processCommand s c
    | .eof => { motorOff s with control_mode := 0, pipe_open := false }
  else s

/-- The command-pipe reconnection block of the main loop: while the pipe is
closed, bump the timer and attempt `openPipe()` every 10 cycles (~1 s);
`opened` says whether that attempt succeeded. -/
def reconnectStep (s : CtrlState) (opened : Bool) : CtrlState :=
  if s.pipe_open then s
  else if s.reconnect_timer + 1 ≥ 10 then
    { s with reconnect_timer := 0, pipe_open := opened }
  else
    { s with reconnect_timer := s.reconnect_timer + 1 }

/-- The `ready == 0` (timeout) block of the main loop: in automatic mode
with the motor on, run the PID controller and apply a changed speed.
(The RPM snapshot read under the mutex is the parameter `rpm`; status output
and console display have no state.) -/
def timeoutWork (s : CtrlState) (rpm : ℚ) (now now2 : ℕ) : CtrlState :=
  if s.control_mode = 1 ∧ s.motor_on then
    let r := pidController s rpm s.desired_rpm now now2
    if r.1 ≠ r.2.speed then setSpeed r.2 r.1 else r.2
  else s

/-- One full iteration of the main control loop, in source order: keyboard
branch, pipe branch, pipe-reconnect block, then the timeout-period work
(`timedOut` is `ready == 0`). -/
def loopCycle (s : CtrlState) (kb : Option Command) (pr : PipeRead)
    (timedOut opened : Bool) (rpm : ℚ) (now now2 : ℕ) : CtrlState :=
  let s1 := handleStdin s kb
  let s2 := handlePipe s1 pr
  let s3 := reconnectStep s2 opened
  if timedOut then timeoutWork s3 rpm now now2 else s3

/-- The RPM thread's pulse log: the circular buffer `pulse_times[1000]`, the
write cursor `pulse_index`, and the saturating local `pulse_count` (incremented
only while below 1000). -/
structure PulseLog where
  times : ℕ → ℕ
  index : ℕ
  count : ℕ

/-- Recording one detected sensor edge at tick `t`: store the timestamp at
the cursor, advance the cursor modulo 1000, saturate the count at 1000. -/
def recordEdge (L : PulseLog) (t : ℕ) : PulseLog :=
  { times := fun i => if i = L.index then t else L.times i,
    index := (L.index + 1) % 1000,
    count := if L.count < 1000 then L.count + 1 else L.count }

/-- The per-pulse window test of the ring-buffer scan, literally as in the
source: a pulse is counted iff `current_time >= pulse_time` and
`current_time - pulse_time <= RPM_CALCULATION_WINDOW_MS * 1000` (500000 µs).
Note the scan performs no wraparound adjustment (the computed
`window_ago_adjusted` in the source is never used). -/
def inWindow (now t : ℕ) : Bool :=
  decide (t ≤ now ∧ now - t ≤ 500000)

/-- The ring slots visited by the scan: for `c = min(pulse_count, 1000)`,
entries `pulse_times[(pulse_index + 1000 - c + i) % 1000]` for `i < c`. -/
def scannedSlots (L : PulseLog) : List ℕ :=
  let c := min L.count 1000
  (List.range c).map (fun i => L.times ((L.index + 1000 - c + i) % 1000))

/-- `pulses_in_window`: how many scanned entries pass the window test. -/
def pulsesInWindow (L : PulseLog) (now : ℕ) : ℕ :=
  (scannedSlots L).countP (inWindow now)

/-- The RPM recomputation of `rpmThread` at query tick `now`: 0 when no
pulse was ever recorded, else
`(pulses_in_window / NUM_BLADES) * (60 / window_seconds)` with NUM_BLADES = 3
and `window_seconds = 500 / 1000.0`. -/
def recomputeRPM (L : PulseLog) (now : ℕ) : ℚ :=
  if 0 < L.count then
    let window_seconds : ℚ := 500 / 1000
    ((pulsesInWindow L now : ℚ) / 3) * (60 / window_seconds)
  else 0

/-- Reference definition, from the spec's words: with `k` edges in the
window and `b` blades per revolution, RPM = `(k / b) * (60 / 0.5)` =
`(k / b) * 120`. -/
def specRPM (k b : ℕ) : ℚ :=
  ((k : ℚ) / (b : ℚ)) * 120

/-- A sample state used by the witness theorems: motor running at 50% in
automatic mode, command pipe connected. -/
def sampleState : CtrlState :=
  { speed := 50, motor_on := true, direction := 1, control_mode := 1,
    desired_rpm := 100, pid_integral := 3, pid_last_error := 2,
    last_speed_change_time := 0,
    gpio := { pwm := 127, in1 := true, in2 := false, led := true },
    quit := false, pipe_open := true, reconnect_timer := 0 }

/-- Concrete state for the C3 counterexample, full-stop path: speed 80,
stabilization gate unarmed. -/
def cexSpeed80 : CtrlState :=
  { sampleState with speed := 80, desired_rpm := 0,
                     pid_integral := 0, pid_last_error := 0 }

/-- Concrete state for the C3 counterexample, kickstart path: speed 0,
stabilization gate unarmed. -/
def cexSpeed0 : CtrlState :=
  { sampleState with speed := 0, pid_integral := 0, pid_last_error := 0 }

/-- Concrete state for the C8 counterexample: a previously armed
stabilization timer (`g_last_speed_change_time = 42`). -/
def cexArmed : CtrlState :=
  { sampleState with control_mode := 0, last_speed_change_time := 42 }

/-- The clamp of `setSpeed` and of the PID result always lands in [0,100]. -/
theorem clampSpeed_mem (n : ℤ) : 0 ≤ clampSpeed n ∧ clampSpeed n ≤ 100 := by
  unfold clampSpeed; split_ifs <;> omega

/-- The rate limiter always lands in [-2,2]. -/
theorem clampAdj_mem (q : ℚ) : -2 ≤ clampAdj q ∧ clampAdj q ≤ 2 := by
  unfold clampAdj; split_ifs <;> constructor <;> linarith

/-- Truncation toward zero of a rational in [-2,2] is an integer in [-2,2]. -/
theorem ratTrunc_mem (q : ℚ) (h1 : -2 ≤ q) (h2 : q ≤ 2) :
    -2 ≤ ratTrunc q ∧ ratTrunc q ≤ 2 := by
  unfold ratTrunc
  split_ifs with h
  · constructor
    · calc (-2 : ℤ) = ⌈((-2 : ℤ) : ℚ)⌉ := (Int.ceil_intCast _).symm
        _ ≤ ⌈q⌉ := Int.ceil_le_ceil (by exact_mod_cast h1)
    · calc ⌈q⌉ ≤ ⌈((2 : ℤ) : ℚ)⌉ := Int.ceil_le_ceil (by exact_mod_cast h2)
        _ = 2 := Int.ceil_intCast _
  · constructor
    · calc (-2 : ℤ) = ⌊((-2 : ℤ) : ℚ)⌋ := (Int.floor_intCast _).symm
        _ ≤ ⌊q⌋ := Int.floor_le_floor (by exact_mod_cast h1)
    · calc ⌊q⌋ ≤ ⌊((2 : ℤ) : ℚ)⌋ := Int.floor_le_floor (by exact_mod_cast h2)
        _ = 2 := Int.floor_intCast _

@[simp] theorem setSpeed_pipe_open (s : CtrlState) (x : ℤ) :
    (setSpeed s x).pipe_open = s.pipe_open := by
  simp only [setSpeed]; split_ifs <;> rfl

@[simp] theorem setDirection_pipe_open (s : CtrlState) (d : ℤ) :
    (setDirection s d).pipe_open = s.pipe_open := by
  simp only [setDirection]; split_ifs <;> rfl

@[simp] theorem motorOff_pipe_open (s : CtrlState) :
    (motorOff s).pipe_open = s.pipe_open := rfl

@[simp] theorem motorOn_pipe_open (s : CtrlState) :
    (motorOn s).pipe_open = s.pipe_open := by
  simp only [motorOn]; split_ifs <;> simp

/-- `processCommand` never touches the pipe connection state. -/
@[simp] theorem processCommand_pipe_open (s : CtrlState) (c : Command) :
    (processCommand s c).pipe_open = s.pipe_open := by
  cases c <;> simp only [processCommand] <;> (try split_ifs) <;> simp

@[simp] theorem setSpeed_pid_integral (s : CtrlState) (x : ℤ) :
    (setSpeed s x).pid_integral = s.pid_integral := by
  simp only [setSpeed]; split_ifs <;> rfl

@[simp] theorem setSpeed_pid_last_error (s : CtrlState) (x : ℤ) :
    (setSpeed s x).pid_last_error = s.pid_last_error := by
  simp only [setSpeed]; split_ifs <;> rfl

@[simp] theorem setSpeed_last_change (s : CtrlState) (x : ℤ) :
    (setSpeed s x).last_speed_change_time = s.last_speed_change_time := by
  simp only [setSpeed]; split_ifs <;> rfl

@[simp] theorem setDirection_pid_integral (s : CtrlState) (d : ℤ) :
    (setDirection s d).pid_integral = s.pid_integral := by
  simp only [setDirection]; split_ifs <;> rfl

@[simp] theorem setDirection_pid_last_error (s : CtrlState) (d : ℤ) :
    (setDirection s d).pid_last_error = s.pid_last_error := by
  simp only [setDirection]; split_ifs <;> rfl

@[simp] theorem setDirection_last_change (s : CtrlState) (d : ℤ) :
    (setDirection s d).last_speed_change_time = s.last_speed_change_time := by
  simp only [setDirection]; split_ifs <;> rfl

@[simp] theorem motorOff_pid_integral (s : CtrlState) :
    (motorOff s).pid_integral = s.pid_integral := rfl

@[simp] theorem motorOff_pid_last_error (s : CtrlState) :
    (motorOff s).pid_last_error = s.pid_last_error := rfl

@[simp] theorem motorOff_last_change (s : CtrlState) :
    (motorOff s).last_speed_change_time = s.last_speed_change_time := rfl

@[simp] theorem reconnectStep_motor_on (s : CtrlState) (b : Bool) :
    (reconnectStep s b).motor_on = s.motor_on := by
  simp only [reconnectStep]; split_ifs <;> rfl

@[simp] theorem reconnectStep_gpio (s : CtrlState) (b : Bool) :
    (reconnectStep s b).gpio = s.gpio := by
  simp only [reconnectStep]; split_ifs <;> rfl

@[simp] theorem reconnectStep_control_mode (s : CtrlState) (b : Bool) :
    (reconnectStep s b).control_mode = s.control_mode := by
  simp only [reconnectStep]; split_ifs <;> rfl

/-- Outside automatic mode the timeout-period work leaves the state alone. -/
theorem timeoutWork_of_not_auto (s : CtrlState) (rpm : ℚ) (now now2 : ℕ)
    (h : s.control_mode ≠ 1) : timeoutWork s rpm now now2 = s := by
  simp [timeoutWork, h]

/-- C1: if the inbound command pipe reaches end-of-stream while in any prior
state with the pipe connected, then within that same control-loop cycle —
already immediately after the pipe branch runs, hence before the reopen
attempt of the reconnect block — the motor is hard-stopped (`g_motor_on`
false, PWM zeroed) and the control mode is Manual; and the state at the end
of the full cycle still has the motor off, PWM zero and Manual mode,
whatever the keyboard input, timeout flag, reopen outcome, RPM snapshot and
tick values were. -/
theorem c1_pipe_eof_forces_safe_stop (s : CtrlState) (h : s.pipe_open = true)
    (kb : Option Command) (timedOut opened : Bool) (rpm : ℚ) (now now2 : ℕ) :
    ((handlePipe (handleStdin s kb) PipeRead.eof).motor_on = false ∧
     (handlePipe (handleStdin s kb) PipeRead.eof).gpio.pwm = 0 ∧
     (handlePipe (handleStdin s kb) PipeRead.eof).control_mode = 0) ∧
    ((loopCycle s kb PipeRead.eof timedOut opened rpm now now2).motor_on = false ∧
     (loopCycle s kb PipeRead.eof timedOut opened rpm now now2).gpio.pwm = 0 ∧
     (loopCycle s kb PipeRead.eof timedOut opened rpm now now2).control_mode = 0) := by
  have hp : (handleStdin s kb).pipe_open = true := by
    cases kb with
    | none => exact h
    | some c => simpa [handleStdin] using h
  have h2 : (handlePipe (handleStdin s kb) PipeRead.eof).motor_on = false ∧
      (handlePipe (handleStdin s kb) PipeRead.eof).gpio.pwm = 0 ∧
      (handlePipe (handleStdin s kb) PipeRead.eof).control_mode = 0 := by
    simp [handlePipe, hp, motorOff]
  refine ⟨h2, ?_⟩
  simp only [loopCycle]
  set s2 := handlePipe (handleStdin s kb) PipeRead.eof with hs2
  have h3 : (reconnectStep s2 opened).motor_on = false ∧
      (reconnectStep s2 opened).gpio.pwm = 0 ∧
      (reconnectStep s2 opened).control_mode = 0 := by
    simpa using h2
  cases timedOut with
  | false => simpa using h3
  | true =>
      rw [if_pos rfl, timeoutWork_of_not_auto _ _ _ _ (by rw [h3.2.2]; decide)]
      exact h3

/-- Witness for C1 at a concrete connected state. -/
theorem c1_witness :
    (loopCycle sampleState none PipeRead.eof false false 0 0 0).motor_on = false ∧
    (loopCycle sampleState none PipeRead.eof false false 0 0 0).gpio.pwm = 0 ∧
    (loopCycle sampleState none PipeRead.eof false false 0 0 0).control_mode = 0 :=
  (c1_pipe_eof_forces_safe_stop sampleState rfl none false false 0 0 0).2

/-- C2: `motorOff()` leaves, for every prior state, the PWM output at 0,
both direction lines low (brake), the LED low, and the enabled flag false. -/
theorem c2_motorOff_outputs (s : CtrlState) :
    (motorOff s).gpio.pwm = 0 ∧ (motorOff s).gpio.in1 = false ∧
    (motorOff s).gpio.in2 = false ∧ (motorOff s).gpio.led = false ∧
    (motorOff s).motor_on = false :=
  ⟨rfl, rfl, rfl, rfl, rfl⟩

/-- Counterexample to C3 as stated: with target RPM 0 and stored speed 80
the controller returns 0 (a jump of 80), and with stored speed 0 and target
100 the kickstart rule returns 20 (a jump of 20); both exceed
MAX_SPEED_CHANGE = 2. -/
theorem c3_rate_limit_cex :
    ¬ |(pidController cexSpeed80 0 0 0 0).1 - cexSpeed80.speed| ≤ 2 ∧
    ¬ |(pidController cexSpeed0 0 100 0 0).1 - cexSpeed0.speed| ≤ 2 := by
  constructor
  · decide
  · have h20 : (pidController cexSpeed0 0 100 0 0).1 = 20 := by
      norm_num [pidController, pidNewIntegral, pidAdjustment, clampAdj, clampSpeed,
        ratTrunc, elapsedWrap, cexSpeed0, sampleState]
    rw [h20]; decide

/-- C3 (amended): for every state with stored speed in [0,100] and target
RPM at least 1.0, one invocation of `pidController` either moves the
commanded speed by at most MAX_SPEED_CHANGE = 2, or fires the kickstart rule
(previous speed 0, result forced to 20). The unamended claim additionally
fails when the target is below 1.0, where the result is an immediate 0 from
any speed. -/
theorem c3_rate_limit_amended (g : CtrlState) (rpm desired : ℚ) (now now2 : ℕ)
    (h0 : 0 ≤ g.speed) (h100 : g.speed ≤ 100) (hd : 1 ≤ desired) :
    (g.speed = 0 ∧ (pidController g rpm desired now now2).1 = 20) ∨
    |(pidController g rpm desired now now2).1 - g.speed| ≤ 2 := by
  have hadj := clampAdj_mem (pidAdjustment g.pid_integral g.pid_last_error (desired - rpm))
  have ht := ratTrunc_mem _ hadj.1 hadj.2
  simp only [pidController]
  split_ifs with hlt hgate hkick hne hne2
  · exact absurd hlt (by linarith)
  · right; simp
  · exact Or.inl ⟨hkick.1, rfl⟩
  · exact Or.inl ⟨hkick.1, rfl⟩
  · right
    simp only []
    rw [abs_le]
    revert ht
    simp only [clampSpeed]
    split_ifs <;> omega
  · right
    simp only []
    rw [abs_le]
    revert ht
    simp only [clampSpeed]
    split_ifs <;> omega

/-- Witness for the amended C3 at a concrete reachable state. -/
theorem c3_witness :
    (sampleState.speed = 0 ∧ (pidController sampleState 0 100 0 0).1 = 20) ∨
    |(pidController sampleState 0 100 0 0).1 - sampleState.speed| ≤ 2 :=
  c3_rate_limit_amended sampleState 0 100 0 0 (by decide) (by decide) (by norm_num)

/-- C4: with a stored speed in [0,100] (a reachability invariant of
`g_speed`) the PID result is always in [0,100]; and whenever the target RPM
is below 1.0, the result is exactly 0 and the three PIDState fields are
reset (integral 0, lastError 0, stabilization timer unset), for every
measured RPM and stored speed. -/
theorem c4_pid_output_bounds (g : CtrlState) (rpm desired : ℚ) (now now2 : ℕ) :
    (0 ≤ g.speed → g.speed ≤ 100 →
      0 ≤ (pidController g rpm desired now now2).1 ∧
      (pidController g rpm desired now now2).1 ≤ 100) ∧
    (desired < 1 →
      (pidController g rpm desired now now2).1 = 0 ∧
      (pidController g rpm desired now now2).2.pid_integral = 0 ∧
      (pidController g rpm desired now now2).2.pid_last_error = 0 ∧
      (pidController g rpm desired now now2).2.last_speed_change_time = 0) := by
  constructor
  · intro h0 h100
    have hcl := clampSpeed_mem
      (g.speed + ratTrunc (clampAdj (pidAdjustment g.pid_integral g.pid_last_error (desired - rpm))))
    simp only [pidController]
    split_ifs <;> simp <;> omega
  · intro hlt
    simp [pidController, if_pos hlt]

/-- Witness for C4 at a concrete state with target 0. -/
theorem c4_witness :
    (0 ≤ (pidController sampleState 90 0 0 0).1 ∧
     (pidController sampleState 90 0 0 0).1 ≤ 100) ∧
    ((pidController sampleState 90 0 0 0).1 = 0 ∧
     (pidController sampleState 90 0 0 0).2.pid_integral = 0 ∧
     (pidController sampleState 90 0 0 0).2.pid_last_error = 0 ∧
     (pidController sampleState 90 0 0 0).2.last_speed_change_time = 0) :=
  ⟨(c4_pid_output_bounds sampleState 90 0 0 0).1 (by decide) (by decide),
   (c4_pid_output_bounds sampleState 90 0 0 0).2 (by norm_num)⟩

/-- C5: the RPM recomputation matches the reference definition — with no
pulse ever recorded the estimate is 0 for any query tick, and with `k`
scanned entries passing the window test it equals `(k / 3) * 120` (blades
per revolution b = NUM_BLADES = 3). -/
theorem c5_rpm_reference (L : PulseLog) (now k : ℕ)
    (hk : pulsesInWindow L now = k) :
    (L.count = 0 → recomputeRPM L now = 0) ∧
    (0 < L.count → recomputeRPM L now = specRPM k 3) := by
  subst hk
  constructor
  · intro h; simp [recomputeRPM, h]
  · intro h
    simp only [recomputeRPM, if_pos h, specRPM]
    norm_num

/-- Witness for C5: an empty log at query tick 7, and a one-entry log whose
entry is 0 µs old. -/
theorem c5_witness :
    recomputeRPM ⟨fun _ => 0, 0, 0⟩ 7 = 0 ∧
    recomputeRPM ⟨fun _ => 100, 1, 1⟩ 100 = specRPM 1 3 :=
  ⟨(c5_rpm_reference ⟨fun _ => 0, 0, 0⟩ 7 0 (by decide)).1 rfl,
   (c5_rpm_reference ⟨fun _ => 100, 1, 1⟩ 100 1 (by decide)).2 (by decide)⟩

/-- C6 evidence (code bug): at `now = 5` with a pulse recorded at
`t = 4294967290`, the true elapsed time modulo 2^32 is 11 µs (well inside
the 500 ms window), but (a) the source's overflow branch
`(0xFFFFFFFF - t) + now` computes 10 — one less than the true value — and
(b) the ring-buffer scan, whose window test requires `current_time >=
pulse_time` and performs no wraparound adjustment (its `window_ago_adjusted`
is computed but never used), does not count the pulse at all. -/
theorem c6_wraparound_eval :
    elapsedWrap 5 4294967290 = 10 ∧
    (5 + 2 ^ 32 - 4294967290) % 2 ^ 32 = 11 ∧
    inWindow 5 4294967290 = false ∧
    pulsesInWindow ⟨fun _ => 4294967290, 1, 1⟩ 5 = 0 := by
  decide

/-- C7: while the control mode is Automatic, the manual speed commands
plus, minus and `s N` are rejected and leave the entire state unchanged. -/
theorem c7_auto_rejects_manual (s : CtrlState) (n : ℤ) (h : s.control_mode = 1) :
    processCommand s Command.cmdPlus = s ∧
    processCommand s Command.cmdMinus = s ∧
    processCommand s (Command.cmdSetSpeed n) = s := by
  simp [processCommand, h]

/-- Witness for C7 at a concrete automatic-mode state. -/
theorem c7_witness :
    processCommand sampleState Command.cmdPlus = sampleState ∧
    processCommand sampleState Command.cmdMinus = sampleState ∧
    processCommand sampleState (Command.cmdSetSpeed 70) = sampleState :=
  c7_auto_rejects_manual sampleState 70 rfl

/-- Counterexample to C8 as stated: entering Automatic via `auto 100` from a
state whose stabilization timestamp is 42 leaves that timestamp at 42 — the
source's auto branch resets only `g_pid_integral` and `g_pid_last_error`,
not `g_last_speed_change_time`. -/
theorem c8_auto_reset_cex :
    ¬ (processCommand cexArmed (Command.cmdAuto 100)).last_speed_change_time = 0 := by
  decide

/-- C8 (amended): the `auto N` command resets the integral accumulator and
the lastError memory to zero, but leaves `lastSpeedChangeTick` unchanged
(that field is reset only inside `pidController` when the target drops below
1.0). -/
theorem c8_auto_resets_pid_partially (s : CtrlState) (n : ℚ) :
    (processCommand s (Command.cmdAuto n)).pid_integral = 0 ∧
    (processCommand s (Command.cmdAuto n)).pid_last_error = 0 ∧
    (processCommand s (Command.cmdAuto n)).last_speed_change_time
      = s.last_speed_change_time := by
  refine ⟨?_, ?_, ?_⟩ <;> simp only [processCommand] <;> split_ifs <;> simp

/-- C9: `motorOff()` is idempotent on MotorState — a second call leaves the
stored speed, direction and enabled flag exactly as after the first. -/
theorem c9_motorOff_idempotent (s : CtrlState) :
    (motorOff (motorOff s)).speed = (motorOff s).speed ∧
    (motorOff (motorOff s)).direction = (motorOff s).direction ∧
    (motorOff (motorOff s)).motor_on = (motorOff s).motor_on :=
  ⟨rfl, rfl, rfl⟩

/-- C10: `setSpeed` toggles the enabled flag as a side effect — a clamped
argument of 0 clears `g_motor_on`, stops the PWM and clears the LED; a
positive clamped argument sets `g_motor_on` and asserts the LED, whatever
the prior state (in particular even if the motor was off and `motorOn` was
never called). -/
theorem c10_setSpeed_enable_effect (s : CtrlState) (x : ℤ) :
    (clampSpeed x = 0 →
      (setSpeed s x).motor_on = false ∧ (setSpeed s x).gpio.pwm = 0 ∧
      (setSpeed s x).gpio.led = false ∧ (setSpeed s x).speed = 0) ∧
    (0 < clampSpeed x →
      (setSpeed s x).motor_on = true ∧ (setSpeed s x).gpio.led = true) := by
  constructor
  · intro h; simp [setSpeed, h]
  · intro h
    have hne : ¬ clampSpeed x = 0 := by omega
    simp [setSpeed, hne]

/-- Witness for C10: a negative argument (clamped to 0) on a running motor,
and an argument above 100 (clamped to 100) on a stopped motor. -/
theorem c10_witness :
    ((setSpeed sampleState (-3)).motor_on = false ∧
     (setSpeed sampleState (-3)).gpio.pwm = 0 ∧
     (setSpeed sampleState (-3)).gpio.led = false ∧
     (setSpeed sampleState (-3)).speed = 0) ∧
    ((setSpeed (motorOff sampleState) 150).motor_on = true ∧
     (setSpeed (motorOff sampleState) 150).gpio.led = true) :=
  ⟨(c10_setSpeed_enable_effect sampleState (-3)).1 (by decide),
   (c10_setSpeed_enable_effect (motorOff sampleState) 150).2 (by decide)⟩

end MC
